import Mathlib

/-!
Verification of the prediction engine of the NBApredict repository
(`src/predict.py`, `src/helpers/br_references.py`).

The shallow embedding below translates the Python source into Lean:
dataframes become lists of rows, a row being an ordered association list of
column name and real value; scipy's `stats.norm(loc, scale).cdf`/`.sf` become
the mathematical normal cumulative distribution function, built from
Mathlib's `ProbabilityTheory.gaussianPDFReal`; Python functions that can
raise become `Except`-valued functions; `datetime` timestamps become integer
minutes (one day = 1440 minutes), with `datetime.datetime(year, month, day)`
computed by the proleptic Gregorian ordinal formula that CPython uses.
-/

open MeasureTheory ProbabilityTheory Set

namespace NBApredict

/-! ## The normal distribution: CDF and survival function

`scipy.stats.norm(loc=m, scale=s)` is the normal distribution with mean `m`
and standard deviation `s`; its variance is `s^2`. -/

/-- The variance `s^2` of a normal distribution with standard deviation `s`,
as a nonnegative real, for use with `gaussianPDFReal`. -/
def sqVar (s : ℝ) : NNReal := ⟨s ^ 2, sq_nonneg s⟩

lemma sqVar_ne_zero {s : ℝ} (hs : s ≠ 0) : sqVar s ≠ 0 := by
  intro h
  apply hs
  have h2 : ((sqVar s : NNReal) : ℝ) = 0 := by rw [h]; rfl
  have h3 : s ^ 2 = 0 := h2
  exact pow_eq_zero_iff two_ne_zero |>.mp h3

/-- `dist.cdf x` for `dist = scipy.stats.norm(loc=m, scale=s)`: the cumulative
distribution function of the normal distribution with mean `m` and standard
deviation `s`, `P(X ≤ x) = ∫_{-∞}^{x} pdf`. -/
noncomputable def normCdf (m s x : ℝ) : ℝ :=
  ∫ t in Iic x, gaussianPDFReal m (sqVar s) t

/-- `dist.sf x`: the survival function, `1 - cdf` (scipy documents
`sf(x) = 1 - cdf(x)`). -/
noncomputable def normSf (m s x : ℝ) : ℝ := 1 - normCdf m s x

lemma gaussianPDFReal_integrableOn (m : ℝ) (v : NNReal) (s : Set ℝ) :
    IntegrableOn (gaussianPDFReal m v) s :=
  (integrable_gaussianPDFReal m v).integrableOn

/-- Translating the mean of a gaussian translates its CDF argument. -/
lemma normCdf_eq_sub (m s x : ℝ) : normCdf m s x = normCdf 0 s (x - m) := by
  unfold normCdf
  have h1 : ∀ t : ℝ, gaussianPDFReal m (sqVar s) t = gaussianPDFReal 0 (sqVar s) (t - m) := by
    intro t
    rw [gaussianPDFReal_sub, zero_add]
  calc ∫ t in Iic x, gaussianPDFReal m (sqVar s) t
      = ∫ t in Iic x, gaussianPDFReal 0 (sqVar s) (t - m) := by simp_rw [h1]
    _ = ∫ t, (Iic x).indicator (fun u => gaussianPDFReal 0 (sqVar s) (u - m)) t :=
        (integral_indicator measurableSet_Iic).symm
    _ = ∫ t, (Iic (x - m)).indicator (gaussianPDFReal 0 (sqVar s)) (t - m) := by
        congr 1
        ext t
        simp [indicator_apply, mem_Iic, sub_le_sub_iff_right]
    _ = ∫ t, (Iic (x - m)).indicator (gaussianPDFReal 0 (sqVar s)) t :=
        integral_sub_right_eq_self _ m
    _ = ∫ t in Iic (x - m), gaussianPDFReal 0 (sqVar s) t :=
        integral_indicator measurableSet_Iic

/-- The normal CDF is monotone in its argument. -/
lemma normCdf_mono (m s : ℝ) {x y : ℝ} (hxy : x ≤ y) : normCdf m s x ≤ normCdf m s y :=
  setIntegral_mono_set (gaussianPDFReal_integrableOn m (sqVar s) _)
    (Filter.Eventually.of_forall fun t => gaussianPDFReal_nonneg m (sqVar s) t)
    ((Iic_subset_Iic.mpr hxy).eventuallyLE)

/-- The normal CDF is strictly monotone in its argument when `s ≠ 0`. -/
lemma normCdf_strictMono (m : ℝ) {s x y : ℝ} (hs : s ≠ 0) (hxy : x < y) :
    normCdf m s x < normCdf m s y := by
  have hv : sqVar s ≠ 0 := sqVar_ne_zero hs
  have hpos : 0 < ∫ t in Ioc x y, gaussianPDFReal m (sqVar s) t := by
    rw [setIntegral_pos_iff_support_of_nonneg_ae
      (Filter.Eventually.of_forall fun t => gaussianPDFReal_nonneg m (sqVar s) t)
      (gaussianPDFReal_integrableOn m (sqVar s) _)]
    have hsupp : Function.support (gaussianPDFReal m (sqVar s)) ∩ Ioc x y = Ioc x y :=
      inter_eq_right.mpr fun t _ => ne_of_gt (gaussianPDFReal_pos m (sqVar s) t hv)
    rw [hsupp, Real.volume_Ioc]
    exact ENNReal.ofReal_pos.mpr (by linarith)
  have hsplit : normCdf m s y = normCdf m s x + ∫ t in Ioc x y, gaussianPDFReal m (sqVar s) t := by
    unfold normCdf
    rw [← setIntegral_union (Iic_disjoint_Ioc le_rfl) measurableSet_Ioc
      (gaussianPDFReal_integrableOn m (sqVar s) _) (gaussianPDFReal_integrableOn m (sqVar s) _),
      Iic_union_Ioc_eq_Iic hxy.le]
  linarith

/-- The normal CDF evaluated at the mean is `1/2` (symmetry of the gaussian). -/
lemma normCdf_mean (m : ℝ) {s : ℝ} (hs : s ≠ 0) : normCdf m s m = 1 / 2 := by
  have hv : sqVar s ≠ 0 := sqVar_ne_zero hs
  rw [normCdf_eq_sub, sub_self]
  set g : ℝ → ℝ := gaussianPDFReal 0 (sqVar s) with hg
  have heven : ∀ t : ℝ, g (-t) = g t := by
    intro t
    simp [hg, gaussianPDFReal, neg_sq]
  have hIJ : (∫ t in Iic (0:ℝ), g t) + ∫ t in Ioi (0:ℝ), g t = 1 := by
    rw [intervalIntegral.integral_Iic_add_Ioi (gaussianPDFReal_integrableOn 0 (sqVar s) _)
      (gaussianPDFReal_integrableOn 0 (sqVar s) _)]
    exact integral_gaussianPDFReal_eq_one 0 hv
  have hsym : (∫ t in Iic (0:ℝ), g t) = ∫ t in Ioi (0:ℝ), g t := by
    calc ∫ t in Iic (0:ℝ), g t = ∫ t in Iic (0:ℝ), g (-t) := by simp_rw [heven]
      _ = ∫ t in Ioi (-(0:ℝ)), g t := integral_comp_neg_Iic 0 g
      _ = ∫ t in Ioi (0:ℝ), g t := by rw [neg_zero]
  have : normCdf 0 s 0 = ∫ t in Iic (0:ℝ), g t := rfl
  rw [this]
  linarith

/-- The normal CDF is antitone in the mean. -/
lemma normCdf_anti_mean {m₁ m₂ : ℝ} (s x : ℝ) (h : m₁ ≤ m₂) :
    normCdf m₂ s x ≤ normCdf m₁ s x := by
  rw [normCdf_eq_sub, normCdf_eq_sub m₁]
  exact normCdf_mono 0 s (by linarith)

/-- The normal CDF is strictly antitone in the mean when `s ≠ 0`. -/
lemma normCdf_strictAnti_mean {m₁ m₂ s : ℝ} (x : ℝ) (hs : s ≠ 0) (h : m₁ < m₂) :
    normCdf m₂ s x < normCdf m₁ s x := by
  rw [normCdf_eq_sub, normCdf_eq_sub m₁]
  exact normCdf_strictMono 0 hs (by linarith)

lemma normCdf_le_half {m s x : ℝ} (hs : s ≠ 0) (hx : x ≤ m) : normCdf m s x ≤ 1 / 2 :=
  (normCdf_mono m s hx).trans_eq (normCdf_mean m hs)

lemma half_le_normCdf {m s x : ℝ} (hs : s ≠ 0) (hx : m ≤ x) : 1 / 2 ≤ normCdf m s x :=
  (normCdf_mean m hs).symm.trans_le (normCdf_mono m s hx)

lemma normCdf_lt_half {m s x : ℝ} (hs : s ≠ 0) (hx : x < m) : normCdf m s x < 1 / 2 :=
  (normCdf_strictMono m hs hx).trans_eq (normCdf_mean m hs)

/-! ## `line_probability` (src/predict.py lines 90-111)

The Python function returns a `(probability, tag)` tuple on the strict
branches and the bare float `0.5` on the equality branch, so its result type
is the sum of the two shapes. -/

/-- The possible return shapes of `line_probability`: a `(probability, tag)`
pair, or a bare scalar probability. -/
inductive LPResult where
  | pair (prob : ℝ) (tag : String)
  | scalar (prob : ℝ)

/-- The probability carried by a `line_probability` result, whichever shape. -/
def LPResult.prob : LPResult → ℝ
  | .pair p _ => p
  | .scalar p => p

/-- `line_probability(prediction, line, std)`:
```
dist = stats.norm(loc=prediction, scale=std)
line_prediction = -1 * line
if prediction > line_prediction:   return dist.cdf(line_prediction), "cdf"
elif prediction < line_prediction: return dist.sf(line_prediction), "sf"
elif prediction == line_prediction: return 0.5
```
Over the reals the three branches are exhaustive, so the implicit
`return None` fall-through of the Python function is unreachable. -/
noncomputable def line_probability (prediction line std : ℝ) : LPResult :=
  let line_prediction := -1 * line
  if prediction > line_prediction then .pair (normCdf prediction std line_prediction) "cdf"
  else if prediction < line_prediction then .pair (normSf prediction std line_prediction) "sf"
  else .scalar 0.5

lemma line_probability_of_gt {prediction line std : ℝ} (h : -1 * line < prediction) :
    line_probability prediction line std =
      .pair (normCdf prediction std (-1 * line)) "cdf" := by
  unfold line_probability
  rw [if_pos h]

lemma line_probability_of_lt {prediction line std : ℝ} (h : prediction < -1 * line) :
    line_probability prediction line std =
      .pair (normSf prediction std (-1 * line)) "sf" := by
  unfold line_probability
  rw [if_neg (by linarith), if_pos h]

lemma line_probability_of_eq {prediction line std : ℝ} (h : prediction = -1 * line) :
    line_probability prediction line std = .scalar 0.5 := by
  unfold line_probability
  rw [if_neg (by linarith), if_neg (by linarith)]

/-! ## `predict_game` (src/predict.py lines 142-180)

`predict_game` fits the regression, resolves the team names, reads the
four-factor table from the database, builds the feature frame and computes a
point prediction; those steps involve the external collaborators
(`four_factor_regression.lm.main`, the SQL database).  The part of
`predict_game` that the claims concern starts at line 174:
```
probability, function = line_probability(prediction, line, np.std(reg.residuals))
...
return {"start_time": start_time, ..., "probability": probability, "function": function}
```
so the embedding below takes the already-computed `prediction` and the
residual standard deviation `std` as inputs.  Destructuring a bare float into
`probability, function` raises `TypeError` in Python; that is the `.error`
branch. -/

/-- The dictionary returned by `predict_game` (src/predict.py lines 179-180). -/
structure PredictionResult where
  start_time : ℤ
  home_team : String
  away_team : String
  line : ℝ
  prediction : ℝ
  probability : ℝ
  function : String

/-- The tail of `predict_game` from line 174 on: destructure the result of
`line_probability` into `probability, function` and package the result
dictionary.  A bare-scalar result cannot be unpacked: Python raises
`TypeError: cannot unpack non-iterable float object`. -/
noncomputable def predict_game_tail (start_time : ℤ) (home_tm away_tm : String)
    (line prediction std : ℝ) : Except String PredictionResult :=
  match line_probability prediction line std with
  | .pair probability function =>
      .ok { start_time := start_time, home_team := home_tm, away_team := away_tm,
            line := line, prediction := prediction, probability := probability,
            function := function }
  | .scalar _ => .error "TypeError: cannot unpack non-iterable float object"

/-! ## Four factors and team stats (src/helpers/br_references.py, src/predict.py)

A dataframe is a list of rows; a row is an ordered association list of
column name and value. -/

/-- One row, as an ordered list of column name and value pairs. -/
abbrev Row := List (String × ℝ)

/-- Python `str.lower()`: lowercase every character.  The team names handled
here are ASCII, where `Char.toLower` agrees with Python. -/
def pyLower (s : String) : String := ⟨s.data.map Char.toLower⟩

/-- `br_references.four_factors` (src/helpers/br_references.py lines 197-201). -/
def four_factors : List String :=
  ["efg_pct", "tov_pct", "orb_pct",
   "ft_rate", "opp_efg_pct", "opp_tov_pct",
   "drb_pct", "opp_ft_rate"]

/-- A row of the `misc_stats` table restricted to `team_name` and the eight
four-factor columns (the columns `get_team_ff` reads). -/
structure TeamStatsRow where
  team_name : String
  efg_pct : ℝ
  tov_pct : ℝ
  orb_pct : ℝ
  ft_rate : ℝ
  opp_efg_pct : ℝ
  opp_tov_pct : ℝ
  drb_pct : ℝ
  opp_ft_rate : ℝ

/-- The column selection `[ff_list]` of src/predict.py line 82: the eight
four-factor columns of a stats row, in the order of `four_factors`. -/
def TeamStatsRow.factorPairs (r : TeamStatsRow) : Row :=
  [("efg_pct", r.efg_pct), ("tov_pct", r.tov_pct), ("orb_pct", r.orb_pct),
   ("ft_rate", r.ft_rate), ("opp_efg_pct", r.opp_efg_pct), ("opp_tov_pct", r.opp_tov_pct),
   ("drb_pct", r.drb_pct), ("opp_ft_rate", r.opp_ft_rate)]

/-- Modelled from the spec: `append_h` of `four_factor_regression.py` (imported
as `lm` in src/predict.py, file not in the repository snapshot).  §4.2 of the
spec: "Renames each selected column by appending `_h` if role is home". -/
def append_h (s : String) : String := s ++ "_h"

/-- Modelled from the spec: `append_a` of `four_factor_regression.py` (imported
as `lm` in src/predict.py, file not in the repository snapshot).  §4.2 of the
spec: "appending ... `_a` if role is away". -/
def append_a (s : String) : String := s ++ "_a"

/-- `df.rename(f, axis='columns')`: apply `f` to every column name of a row. -/
def renameCols (f : String → String) (row : Row) : Row :=
  row.map fun p => (f p.1, p.2)

/-- `get_team_ff(team, ff_df, home)` (src/predict.py lines 70-87):
```
team_ff = ff_df[ff_df.team_name.str.lower() == team.lower()][ff_list]
if home: team_ff = team_ff.rename(lm.append_h, axis='columns')
else:    team_ff = team_ff.rename(lm.append_a, axis='columns')
return team_ff
```
The boolean mask keeps every case-insensitively matching row; nothing is
raised when zero or several rows match. -/
def get_team_ff (team : String) (ff_df : List TeamStatsRow) (home : Bool) : List Row :=
  let team_ff := (ff_df.filter fun r => pyLower r.team_name == pyLower team).map
    TeamStatsRow.factorPairs
  if home then team_ff.map (renameCols append_h)
  else team_ff.map (renameCols append_a)

/-- The value of column `c` in a row (`row.find?` mirrors positional lookup of
a pandas column by name): `none` when the column is absent. -/
def colVal (row : Row) (c : String) : Option ℝ :=
  (row.find? fun p => p.1 == c).map Prod.snd

/-- `pd.merge(left, right, on="key", sort=True)`: the inner equality join on
the `key` column; each output row is the left row followed by the right row
minus its `key` column.  (`sort=True` sorts the output by the join key, the
identity permutation here since every key equals `1`.) -/
noncomputable def mergeOnKey (left right : List Row) : List Row :=
  left.flatMap fun h =>
    right.filterMap fun a =>
      if colVal h "key" = colVal a "key" then
        some (h ++ a.filter fun p => p.1 != "key")
      else none

/-- Insert one column into a row sorted by column name. -/
def insertCol (p : String × ℝ) : Row → Row
  | [] => [p]
  | q :: qs => if p.1 < q.1 then p :: q :: qs else q :: insertCol p qs

/-- `df.sort_index(axis=1)`: sort the columns of a row by column name. -/
def sortCols : Row → Row
  | [] => []
  | p :: ps => insertCol p (sortCols ps)

/-- `create_prediction_df(home_tm, away_tm, ff_df)` (src/predict.py lines 49-67):
```
home_ff = get_team_ff(home_tm, ff_df, home=True)
away_ff = get_team_ff(away_tm, ff_df, home=False)
home_ff["key"] = 1
home_ff["const"] = 1.0
away_ff["key"] = 1
merged = pd.merge(home_ff, away_ff, on="key", sort=True)
merged = merged.drop(["key"], axis=1)
merged = merged.sort_index(axis=1)
return merged
```
Assigning a scalar to a new column appends that column to every row. -/
noncomputable def create_prediction_df (home_tm away_tm : String)
    (ff_df : List TeamStatsRow) : List Row :=
  let home_ff := get_team_ff home_tm ff_df true
  let away_ff := get_team_ff away_tm ff_df false
  let home_ff := home_ff.map fun row => row ++ [("key", (1 : ℝ)), ("const", (1.0 : ℝ))]
  let away_ff := away_ff.map fun row => row ++ [("key", (1 : ℝ))]
  let merged := mergeOnKey home_ff away_ff
  let merged := merged.map fun row => row.filter fun p => p.1 != "key"
  merged.map sortCols

/-! ## Team name resolution (src/predict.py lines 42-46,
src/helpers/br_references.py lines 25-63) -/

/-- The values of the `Team` enumeration of src/helpers/br_references.py, in
declaration order (iteration order of `for team_name in br_references.Team`):
thirty current franchises followed by six deprecated ones. -/
def teamValues : List String :=
  ["ATLANTA HAWKS", "BOSTON CELTICS", "BROOKLYN NETS", "CHARLOTTE HORNETS",
   "CHICAGO BULLS", "CLEVELAND CAVALIERS", "DALLAS MAVERICKS", "DENVER NUGGETS",
   "DETROIT PISTONS", "GOLDEN STATE WARRIORS", "HOUSTON ROCKETS", "INDIANA PACERS",
   "LOS ANGELES CLIPPERS", "LOS ANGELES LAKERS", "MEMPHIS GRIZZLIES", "MIAMI HEAT",
   "MILWAUKEE BUCKS", "MINNESOTA TIMBERWOLVES", "NEW ORLEANS PELICANS",
   "NEW YORK KNICKS", "OKLAHOMA CITY THUNDER", "ORLANDO MAGIC",
   "PHILADELPHIA 76ERS", "PHOENIX SUNS", "PORTLAND TRAIL BLAZERS",
   "SACRAMENTO KINGS", "SAN ANTONIO SPURS", "TORONTO RAPTORS", "UTAH JAZZ",
   "WASHINGTON WIZARDS",
   "CHARLOTTE BOBCATS", "NEW JERSEY NETS", "NEW ORLEANS HORNETS",
   "NEW ORLEANS/OKLAHOMA CITY HORNETS", "SEATTLE SUPERSONICS",
   "VANCOUVER GRIZZLIES"]

/-- `get_team_name(team)` (src/predict.py lines 42-46):
```
for team_name in br_references.Team:
    if team.lower() == team_name.value.lower():
        return team_name.value
```
The first exact case-insensitive match is returned; when no member matches,
the loop falls through and the function returns `None` (`Option.none`). -/
def get_team_name (team : String) : Option String :=
  teamValues.find? fun team_name => pyLower team == pyLower team_name

/-! ## Day-batch prediction (src/predict.py lines 183-215)

Timestamps are integer minutes; `datetime.datetime(year, month, day)` maps a
calendar date to minute `1440 * ordinal` where `ordinal` is the proleptic
Gregorian day number computed exactly as CPython's `datetime.toordinal`, and
`datetime.timedelta(days=1)` is `1440` minutes. -/

/-- A Gregorian leap year (CPython `datetime._is_leap`). -/
def isLeap (y : ℕ) : Bool := y % 4 == 0 && (y % 100 != 0 || y % 400 == 0)

/-- Days in the years before year `y` (CPython `datetime._days_before_year`). -/
def daysBeforeYear (y : ℕ) : ℕ :=
  let n := y - 1
  n * 365 + n / 4 - n / 100 + n / 400

/-- Days in year `y` strictly before month `m` (CPython
`datetime._days_before_month`). -/
def daysBeforeMonth (y m : ℕ) : ℕ :=
  [0, 31, 59, 90, 120, 151, 181, 212, 243, 273, 304, 334].getD (m - 1) 0 +
    (if 2 < m ∧ isLeap y then 1 else 0)

/-- CPython `datetime.date(y, m, d).toordinal()`. -/
def toOrdinal (y m d : ℕ) : ℕ := daysBeforeYear y + daysBeforeMonth y m + d

/-- `datetime.datetime(year=y, month=m, day=d)` as a timestamp in minutes. -/
def mkDatetime (y m d : ℕ) : ℤ := 1440 * (toOrdinal y m d : ℤ)

/-- One row of the `sched_{year}` schedule table: the columns
`predict_games_on_day` reads (`id`, `start_time`, `home_team`, `away_team`). -/
structure SchedRow where
  id : ℕ
  start_time : ℤ
  home_team : String
  away_team : String
  deriving DecidableEq

/-- A Python value that is either a string or a list of strings, as passed to
the `home_tm` parameter of `predict_game` by `predict_games_on_day`. -/
inductive PyStrOrList where
  | str (s : String)
  | list (l : List String)
  deriving DecidableEq

/-- The arguments of one `predict_game` invocation made by
`predict_games_on_day` (src/predict.py lines 204-215). -/
structure PredictGameCall where
  start_time : ℤ
  home_tm : PyStrOrList
  away_tm : String
  line : ℤ
  deriving DecidableEq

/-- The date mask of src/predict.py lines 192-195:
```
date = datetime.datetime(year=year, month=month, day=day)
next_day = date + datetime.timedelta(days=1)
date_mask = (sched_df['start_time'] >= date) & (sched_df['start_time'] < next_day)
games_on_date = sched_df.loc[date_mask]
```
-/
def games_on_date (day month year : ℕ) (sched_df : List SchedRow) : List SchedRow :=
  let date := mkDatetime year month day
  let next_day := date + 1440
  sched_df.filter fun r => decide (date ≤ r.start_time) && decide (r.start_time < next_day)

/-- `predict_games_on_day(day, month, year, sched_df, lines, ...)`
(src/predict.py lines 183-215).  The observable behaviour is embedded as an
`Except`: the `.error` case is the `raise Exception("No games on {}/{}/{}")`
of lines 197-198; the `.ok` case carries, first, the list of `predict_game`
invocations the loop performs in schedule order (their arguments: `lines=True`
passes the hardcoded sample `game_lines[0] = 4` to every game, `lines=False`
passes the literal list `["home_team"]` as `home_tm` and line `0`), and
second, the function's return value, which is `none` (Python `None`) because
the source has no `return` statement and discards each `predict_game` result. -/
def predict_games_on_day (day month year : ℕ) (sched_df : List SchedRow) (lines : Bool) :
    Except String (List PredictGameCall × Option (List PredictionResult)) :=
  let gamesOnDate := games_on_date day month year sched_df
  if gamesOnDate.length < 1 then
    .error ("No games on " ++ toString month ++ "/" ++ toString day ++ "/" ++ toString year)
  else
    let game_lines : List ℤ := [4, -4]
    if lines then
      .ok (gamesOnDate.map fun row =>
        { start_time := row.start_time, home_tm := .str row.home_team,
          away_tm := row.away_team, line := game_lines.headI }, none)
    else
      .ok (gamesOnDate.map fun row =>
        { start_time := row.start_time, home_tm := .list ["home_team"],
          away_tm := row.away_team, line := 0 }, none)

/-! ## Claims about `line_probability` -/

/-- C1: for every prediction `p`, line `l`, and residual standard deviation
`std > 0`, `line_probability p l std` computes the threshold `t = -l` and
returns the CDF of `Normal(mean=p, std)` at `t` tagged `"cdf"` when `p > t`,
the survival function `1 - CDF` at `t` tagged `"sf"` when `p < t`, and the
bare probability `0.5` when `p = t`. -/
theorem C1_line_probability_branches (p l std : ℝ) (hstd : 0 < std) :
    (-l < p → line_probability p l std = .pair (normCdf p std (-l)) "cdf") ∧
    (p < -l → line_probability p l std = .pair (1 - normCdf p std (-l)) "sf") ∧
    (p = -l → line_probability p l std = .scalar 0.5) := by
  have h1 : -1 * l = -l := neg_one_mul l
  refine ⟨fun h => ?_, fun h => ?_, fun h => ?_⟩
  · rw [← h1]
    exact line_probability_of_gt (by rw [h1]; exact h)
  · rw [← h1, line_probability_of_lt (by rw [h1]; exact h)]
    rfl
  · exact line_probability_of_eq (by rw [h1]; exact h)

/-- Witness for C1 at `p = 1`, `l = 0`, `std = 1`. -/
theorem C1_witness :
    (0 : ℝ) < 1 ∧
    ((-(0:ℝ) < 1 → line_probability 1 0 1 = .pair (normCdf 1 1 (-0)) "cdf") ∧
     ((1:ℝ) < -0 → line_probability 1 0 1 = .pair (1 - normCdf 1 1 (-0)) "sf") ∧
     ((1:ℝ) = -0 → line_probability 1 0 1 = .scalar 0.5)) :=
  ⟨by norm_num, C1_line_probability_branches 1 0 1 (by norm_num)⟩

/-- C3 fails on the code: at `std = 1` and threshold `t = -l = 0`, both
`p = 1` and `p = 2` take the `cdf` branch, yet moving the prediction up from
`1` to `2` strictly decreases the returned probability, so the probability is
not non-decreasing in `p` on the `cdf` branch. -/
theorem C3_counterexample :
    (0:ℝ) < 1 ∧ -(0:ℝ) < 1 ∧ (1:ℝ) ≤ 2 ∧
    line_probability 1 0 1 = .pair (normCdf 1 1 0) "cdf" ∧
    line_probability 2 0 1 = .pair (normCdf 2 1 0) "cdf" ∧
    (line_probability 2 0 1).prob < (line_probability 1 0 1).prob := by
  have e1 : line_probability 1 0 1 = .pair (normCdf 1 1 0) "cdf" := by
    have := @line_probability_of_gt 1 0 1 (by norm_num)
    simpa using this
  have e2 : line_probability 2 0 1 = .pair (normCdf 2 1 0) "cdf" := by
    have := @line_probability_of_gt 2 0 1 (by norm_num)
    simpa using this
  refine ⟨by norm_num, by norm_num, by norm_num, e1, e2, ?_⟩
  rw [e1, e2]
  exact normCdf_strictAnti_mean 0 one_ne_zero (by norm_num)

/-- C3 amended: holding `std > 0` and the threshold `t = -l` fixed, the
probability returned by `line_probability` is non-increasing in the
prediction on the `cdf` branch (`t < p`) and non-decreasing in the prediction
on the `sf` branch (`p < t`). -/
theorem C3_amended_monotonicity (p₁ p₂ l std : ℝ) (hstd : 0 < std) :
    (-l < p₁ → p₁ ≤ p₂ →
      (line_probability p₂ l std).prob ≤ (line_probability p₁ l std).prob) ∧
    (p₂ < -l → p₁ ≤ p₂ →
      (line_probability p₁ l std).prob ≤ (line_probability p₂ l std).prob) := by
  have h1 : -1 * l = -l := neg_one_mul l
  constructor
  · intro h hle
    rw [line_probability_of_gt (show -1 * l < p₂ by rw [h1]; linarith),
      line_probability_of_gt (show -1 * l < p₁ by rw [h1]; exact h)]
    exact normCdf_anti_mean std (-1 * l) hle
  · intro h hle
    rw [line_probability_of_lt (show p₁ < -1 * l by rw [h1]; linarith),
      line_probability_of_lt (show p₂ < -1 * l by rw [h1]; exact h)]
    have := @normCdf_anti_mean p₁ p₂ std (-1 * l) hle
    show normSf p₁ std (-1 * l) ≤ normSf p₂ std (-1 * l)
    unfold normSf
    linarith

/-- Witness for the amended C3 at `l = 0`, `std = 1`, `p₁ = 1`, `p₂ = 2`. -/
theorem C3_amended_witness :
    (0:ℝ) < 1 ∧
    ((-(0:ℝ) < 1 → (1:ℝ) ≤ 2 →
       (line_probability 2 0 1).prob ≤ (line_probability 1 0 1).prob) ∧
     ((2:ℝ) < -0 → (1:ℝ) ≤ 2 →
       (line_probability 1 0 1).prob ≤ (line_probability 2 0 1).prob)) :=
  ⟨by norm_num, C3_amended_monotonicity 1 2 0 1 (by norm_num)⟩

/-- C4 fails on the code: at `p = 1`, `l = 0`, `std = 1` the prediction lies
above the threshold, the `cdf` branch is taken, and the returned probability
is the mass of the tail *below* the threshold — strictly less than `0.5`. -/
theorem C4_counterexample :
    (0:ℝ) < 1 ∧
    line_probability 1 0 1 = .pair (normCdf 1 1 0) "cdf" ∧
    (line_probability 1 0 1).prob < 0.5 := by
  have e1 : line_probability 1 0 1 = .pair (normCdf 1 1 0) "cdf" := by
    have := @line_probability_of_gt 1 0 1 (by norm_num)
    simpa using this
  refine ⟨by norm_num, e1, ?_⟩
  rw [e1]
  have := @normCdf_lt_half 1 1 0 one_ne_zero (by norm_num)
  show normCdf 1 1 0 < 0.5
  linarith

/-- C4 amended: for every prediction `p`, line `l`, and `std > 0`, the
probability returned by `line_probability p l std` is never **more** than
`0.5`: the headline probability always measures the tail on the opposite
side of the threshold from the model's own point prediction. -/
theorem C4_amended_prob_le_half (p l std : ℝ) (hstd : 0 < std) :
    (line_probability p l std).prob ≤ 0.5 := by
  have hs : std ≠ 0 := ne_of_gt hstd
  rcases lt_trichotomy p (-1 * l) with h | h | h
  · rw [line_probability_of_lt h]
    have := @half_le_normCdf p std (-1 * l) hs h.le
    show normSf p std (-1 * l) ≤ 0.5
    unfold normSf
    linarith
  · rw [line_probability_of_eq h]
    norm_num [LPResult.prob]
  · rw [line_probability_of_gt h]
    have := @normCdf_le_half p std (-1 * l) hs h.le
    show normCdf p std (-1 * l) ≤ 0.5
    linarith

/-- Witness for the amended C4 at `p = 1`, `l = 0`, `std = 1`. -/
theorem C4_amended_witness :
    (0:ℝ) < 1 ∧ (line_probability 1 0 1).prob ≤ 0.5 :=
  ⟨by norm_num, C4_amended_prob_le_half 1 0 1 (by norm_num)⟩

/-- C10: when the prediction exactly equals the negated line,
`line_probability` returns the bare scalar `0.5` rather than a
`(probability, tag)` pair, so the destructuring at src/predict.py line 174
raises a `TypeError` and `predict_game` never returns a `PredictionResult`. -/
theorem C10_equality_unpack_fails (start_time : ℤ) (home_tm away_tm : String)
    (line prediction std : ℝ) (h : prediction = -line) :
    line_probability prediction line std = .scalar 0.5 ∧
    predict_game_tail start_time home_tm away_tm line prediction std =
      .error "TypeError: cannot unpack non-iterable float object" ∧
    ∀ r : PredictionResult,
      predict_game_tail start_time home_tm away_tm line prediction std ≠ .ok r := by
  have heq : line_probability prediction line std = .scalar 0.5 :=
    line_probability_of_eq (by rw [neg_one_mul]; exact h)
  refine ⟨heq, ?_, ?_⟩
  · unfold predict_game_tail
    rw [heq]
  · intro r hr
    unfold predict_game_tail at hr
    rw [heq] at hr
    exact Except.noConfusion hr

/-- Witness for C10 at `prediction = 0`, `line = 0`, `std = 1`. -/
theorem C10_witness :
    line_probability 0 0 1 = .scalar 0.5 ∧
    predict_game_tail 0 "HOME" "AWAY" 0 0 1 =
      .error "TypeError: cannot unpack non-iterable float object" ∧
    ∀ r : PredictionResult, predict_game_tail 0 "HOME" "AWAY" 0 0 1 ≠ .ok r :=
  C10_equality_unpack_fails 0 "HOME" "AWAY" 0 0 1 (by norm_num)

/-! ## Claims about the feature frame and stats lookup -/

set_option maxHeartbeats 1000000 in
/-- C2: for every stats table in which the home team and the away team each
match exactly one row, `create_prediction_df` returns a single-row frame of
exactly 17 named numeric entries — the eight home-suffixed factors, the eight
away-suffixed factors, and a `const` column fixed at `1.0` — with the column
names sorted lexicographically.  The output is an equation in the inputs, so
equal inputs give the same keys, order and values on every call. -/
theorem C2_create_prediction_df_shape (home_tm away_tm : String)
    (ff_df : List TeamStatsRow) (hr ar : TeamStatsRow)
    (hh : ff_df.filter (fun r => pyLower r.team_name == pyLower home_tm) = [hr])
    (ha : ff_df.filter (fun r => pyLower r.team_name == pyLower away_tm) = [ar]) :
    create_prediction_df home_tm away_tm ff_df =
      [[("const", (1.0:ℝ)),
        ("drb_pct_a", ar.drb_pct), ("drb_pct_h", hr.drb_pct),
        ("efg_pct_a", ar.efg_pct), ("efg_pct_h", hr.efg_pct),
        ("ft_rate_a", ar.ft_rate), ("ft_rate_h", hr.ft_rate),
        ("opp_efg_pct_a", ar.opp_efg_pct), ("opp_efg_pct_h", hr.opp_efg_pct),
        ("opp_ft_rate_a", ar.opp_ft_rate), ("opp_ft_rate_h", hr.opp_ft_rate),
        ("opp_tov_pct_a", ar.opp_tov_pct), ("opp_tov_pct_h", hr.opp_tov_pct),
        ("orb_pct_a", ar.orb_pct), ("orb_pct_h", hr.orb_pct),
        ("tov_pct_a", ar.tov_pct), ("tov_pct_h", hr.tov_pct)]] ∧
    (create_prediction_df home_tm away_tm ff_df).length = 1 ∧
    ∀ row ∈ create_prediction_df home_tm away_tm ff_df,
      row.length = 17 ∧
      row.map Prod.fst =
        ["const", "drb_pct_a", "drb_pct_h", "efg_pct_a", "efg_pct_h",
         "ft_rate_a", "ft_rate_h", "opp_efg_pct_a", "opp_efg_pct_h",
         "opp_ft_rate_a", "opp_ft_rate_h", "opp_tov_pct_a", "opp_tov_pct_h",
         "orb_pct_a", "orb_pct_h", "tov_pct_a", "tov_pct_h"] ∧
      List.Sorted (· < ·) (row.map Prod.fst) := by
  have key : create_prediction_df home_tm away_tm ff_df =
      [[("const", (1.0:ℝ)),
        ("drb_pct_a", ar.drb_pct), ("drb_pct_h", hr.drb_pct),
        ("efg_pct_a", ar.efg_pct), ("efg_pct_h", hr.efg_pct),
        ("ft_rate_a", ar.ft_rate), ("ft_rate_h", hr.ft_rate),
        ("opp_efg_pct_a", ar.opp_efg_pct), ("opp_efg_pct_h", hr.opp_efg_pct),
        ("opp_ft_rate_a", ar.opp_ft_rate), ("opp_ft_rate_h", hr.opp_ft_rate),
        ("opp_tov_pct_a", ar.opp_tov_pct), ("opp_tov_pct_h", hr.opp_tov_pct),
        ("orb_pct_a", ar.orb_pct), ("orb_pct_h", hr.orb_pct),
        ("tov_pct_a", ar.tov_pct), ("tov_pct_h", hr.tov_pct)]] := by
    unfold create_prediction_df get_team_ff
    rw [hh, ha]
    simp +decide [mergeOnKey, colVal, renameCols, TeamStatsRow.factorPairs,
      append_h, append_a, sortCols, insertCol]
  refine ⟨key, by rw [key]; rfl, ?_⟩
  intro row hrow
  rw [key] at hrow
  rw [List.mem_singleton] at hrow
  subst hrow
  refine ⟨rfl, rfl, ?_⟩
  show List.Sorted (· < ·)
    (["const", "drb_pct_a", "drb_pct_h", "efg_pct_a", "efg_pct_h",
      "ft_rate_a", "ft_rate_h", "opp_efg_pct_a", "opp_efg_pct_h",
      "opp_ft_rate_a", "opp_ft_rate_h", "opp_tov_pct_a", "opp_tov_pct_h",
      "orb_pct_a", "orb_pct_h", "tov_pct_a", "tov_pct_h"] : List String)
  simp +decide [List.sorted_cons]

/-- A home stats row used as a concrete witness input. -/
def warriorsRow : TeamStatsRow :=
  { team_name := "GOLDEN STATE WARRIORS", efg_pct := 1, tov_pct := 2, orb_pct := 3,
    ft_rate := 4, opp_efg_pct := 5, opp_tov_pct := 6, drb_pct := 7, opp_ft_rate := 8 }

/-- An away stats row used as a concrete witness input. -/
def celticsRow : TeamStatsRow :=
  { team_name := "BOSTON CELTICS", efg_pct := 11, tov_pct := 12, orb_pct := 13,
    ft_rate := 14, opp_efg_pct := 15, opp_tov_pct := 16, drb_pct := 17, opp_ft_rate := 18 }

/-- A two-team stats table used as a concrete witness input. -/
def sampleStats : List TeamStatsRow := [warriorsRow, celticsRow]

/-- Witness for C2 on a concrete two-team stats table. -/
theorem C2_witness :
    sampleStats.filter
      (fun r => pyLower r.team_name == pyLower "Golden State Warriors") = [warriorsRow] ∧
    sampleStats.filter
      (fun r => pyLower r.team_name == pyLower "Boston Celtics") = [celticsRow] ∧
    (create_prediction_df "Golden State Warriors" "Boston Celtics" sampleStats).length = 1 :=
  ⟨rfl, rfl,
    (C2_create_prediction_df_shape "Golden State Warriors" "Boston Celtics"
      sampleStats warriorsRow celticsRow rfl rfl).2.1⟩

/-- A stats row whose team name is a case variant of the Lakers. -/
def lakersRowMixed : TeamStatsRow :=
  { team_name := "Los Angeles Lakers", efg_pct := 1, tov_pct := 2, orb_pct := 3,
    ft_rate := 4, opp_efg_pct := 5, opp_tov_pct := 6, drb_pct := 7, opp_ft_rate := 8 }

/-- A second stats row naming the same team in upper case. -/
def lakersRowUpper : TeamStatsRow :=
  { team_name := "LOS ANGELES LAKERS", efg_pct := 11, tov_pct := 12, orb_pct := 13,
    ft_rate := 14, opp_efg_pct := 15, opp_tov_pct := 16, drb_pct := 17, opp_ft_rate := 18 }

/-- C6 fails on the code: `get_team_ff` never raises.  On a stats table with
two case-variant rows for the same team it silently returns both matching
rows (no `AmbiguousTeam` failure), and on a team with zero matching rows it
silently returns the empty frame (no `TeamNotFound` failure). -/
theorem C6_counterexample :
    get_team_ff "LOS ANGELES LAKERS" ([lakersRowMixed, lakersRowUpper]) true =
      [renameCols append_h lakersRowMixed.factorPairs,
       renameCols append_h lakersRowUpper.factorPairs] ∧
    (get_team_ff "LOS ANGELES LAKERS" ([lakersRowMixed, lakersRowUpper]) true).length = 2 ∧
    get_team_ff "BOSTON CELTICS" ([lakersRowMixed, lakersRowUpper]) true = [] :=
  ⟨rfl, rfl, rfl⟩

/-- C6 amended: the four-factors extraction never fails.  It returns exactly
one suffixed row per case-insensitively matching row of the stats table: the
empty frame when zero rows match, and all matching rows — rather than an
`AmbiguousTeam` error or a silent single pick — when several match. -/
theorem C6_amended_no_failure (team : String) (ff_df : List TeamStatsRow) (home : Bool) :
    (get_team_ff team ff_df home).length =
      (ff_df.filter fun r => pyLower r.team_name == pyLower team).length := by
  unfold get_team_ff
  cases home <;> simp

/-! ## Claims about the team name resolver -/

/-- If `find?` returns a hit, the hit satisfies the predicate, is an element
of the list, and everything before it fails the predicate. -/
lemma find?_eq_some_split {α : Type} (p : α → Bool) (l : List α) (a : α)
    (h : l.find? p = some a) :
    p a = true ∧ ∃ pre post, l = pre ++ a :: post ∧ ∀ x ∈ pre, p x = false := by
  induction l with
  | nil => simp at h
  | cons b bs ih =>
    by_cases hb : p b
    · rw [List.find?_cons_of_pos _ hb] at h
      obtain rfl : b = a := by injection h
      exact ⟨hb, [], bs, rfl, by simp⟩
    · rw [List.find?_cons_of_neg _ hb] at h
      obtain ⟨hpa, pre, post, rfl, hpre⟩ := ih h
      refine ⟨hpa, b :: pre, post, rfl, ?_⟩
      intro x hx
      rcases List.mem_cons.mp hx with rfl | hx
      · exact Bool.of_not_eq_true hb
      · exact hpre x hx

/-- C7: for every input string, `get_team_name` returns the first canonical
team name matching the input by exact case-insensitive comparison against
the fixed `Team` enumeration, and returns no team (Python `None`, the
spec's `NotFound`) when no canonical team matches; matching is exact
equality of lowercased strings, never partial or fuzzy. -/
theorem C7_get_team_name_first_match (team : String) :
    (∀ r, get_team_name team = some r →
      pyLower team = pyLower r ∧
      ∃ pre post, teamValues = pre ++ r :: post ∧
        ∀ n ∈ pre, pyLower team ≠ pyLower n) ∧
    (get_team_name team = none ↔ ∀ n ∈ teamValues, pyLower team ≠ pyLower n) := by
  constructor
  · intro r hr
    unfold get_team_name at hr
    obtain ⟨hpa, pre, post, hsplit, hpre⟩ :=
      find?_eq_some_split (fun n => pyLower team == pyLower n) teamValues r hr
    refine ⟨by simpa using hpa, pre, post, hsplit, ?_⟩
    intro n hn
    simpa using hpre n hn
  · unfold get_team_name
    rw [List.find?_eq_none]
    constructor
    · intro h n hn
      simpa using h n hn
    · intro h n hn
      simpa using h n hn

/-- Witness for C7: a case variant of the first enumeration member resolves
to its canonical form, and an unknown name resolves to `None`. -/
theorem C7_witness :
    (pyLower "Atlanta hawks" = pyLower "ATLANTA HAWKS" ∧
      ∃ pre post, teamValues = pre ++ "ATLANTA HAWKS" :: post ∧
        ∀ n ∈ pre, pyLower "Atlanta hawks" ≠ pyLower n) ∧
    (get_team_name "SPRINGFIELD ISOTOPES" = none ↔
      ∀ n ∈ teamValues, pyLower "SPRINGFIELD ISOTOPES" ≠ pyLower n) :=
  ⟨(C7_get_team_name_first_match "Atlanta hawks").1 "ATLANTA HAWKS" rfl,
   (C7_get_team_name_first_match "SPRINGFIELD ISOTOPES").2⟩

/-! ## Claims about the day-batch predictor -/

/-- C8: the day filter keeps exactly the schedule rows whose `start_time`
lies in the half-open interval `[date, date + 1 day)`: a game at exactly
midnight of the target date is kept and a game at exactly midnight of the
following date is dropped. -/
theorem C8_day_filter_halfopen (day month year : ℕ) (sched : List SchedRow)
    (r : SchedRow) (hr : r ∈ sched) :
    (r ∈ games_on_date day month year sched ↔
      mkDatetime year month day ≤ r.start_time ∧
      r.start_time < mkDatetime year month day + 1440) ∧
    (r.start_time = mkDatetime year month day →
      r ∈ games_on_date day month year sched) ∧
    (r.start_time = mkDatetime year month day + 1440 →
      r ∉ games_on_date day month year sched) := by
  have hiff : r ∈ games_on_date day month year sched ↔
      mkDatetime year month day ≤ r.start_time ∧
      r.start_time < mkDatetime year month day + 1440 := by
    unfold games_on_date
    rw [List.mem_filter]
    simp [hr]
  refine ⟨hiff, ?_, ?_⟩
  · intro h
    rw [hiff, h]
    omega
  · intro h
    rw [hiff, h]
    omega

/-- A schedule row starting exactly at midnight of 2018-10-17. -/
def midnightGame : SchedRow :=
  { id := 1, start_time := mkDatetime 2018 10 17,
    home_team := "GOLDEN STATE WARRIORS", away_team := "OKLAHOMA CITY THUNDER" }

/-- Witness for C8 on a one-game schedule at midnight of the target date. -/
theorem C8_witness :
    midnightGame ∈ [midnightGame] ∧
    ((midnightGame ∈ games_on_date 17 10 2018 ([midnightGame]) ↔
        mkDatetime 2018 10 17 ≤ midnightGame.start_time ∧
        midnightGame.start_time < mkDatetime 2018 10 17 + 1440) ∧
     (midnightGame.start_time = mkDatetime 2018 10 17 →
        midnightGame ∈ games_on_date 17 10 2018 ([midnightGame])) ∧
     (midnightGame.start_time = mkDatetime 2018 10 17 + 1440 →
        midnightGame ∉ games_on_date 17 10 2018 ([midnightGame]))) :=
  ⟨List.mem_singleton.mpr rfl,
   C8_day_filter_halfopen 17 10 2018 ([midnightGame]) midnightGame
     (List.mem_singleton.mpr rfl)⟩

/-- C9: when no schedule row falls on the requested date,
`predict_games_on_day` raises (`raise Exception("No games on {}/{}/{}")`,
the spec's `NoGamesScheduled`) instead of returning a result. -/
theorem C9_empty_day_raises (day month year : ℕ) (sched : List SchedRow) (lines : Bool)
    (h : games_on_date day month year sched = []) :
    predict_games_on_day day month year sched lines =
      .error ("No games on " ++ toString month ++ "/" ++ toString day ++ "/"
        ++ toString year) := by
  unfold predict_games_on_day
  rw [h]
  rfl

/-- Witness for C9 on the empty schedule. -/
theorem C9_witness :
    games_on_date 17 10 2018 ([] : List SchedRow) = [] ∧
    predict_games_on_day 17 10 2018 ([]) false = .error "No games on 10/17/2018" :=
  ⟨rfl, C9_empty_day_raises 17 10 2018 ([]) false rfl⟩

/-- An evening game on 2018-10-17, the input on which C5's divergences show. -/
def eveningGame : SchedRow :=
  { id := 7, start_time := mkDatetime 2018 10 17 + 19 * 60,
    home_team := "GOLDEN STATE WARRIORS", away_team := "OKLAHOMA CITY THUNDER" }

/-- C5 fails on the code (code bug): on a date with one scheduled game,
`predict_games_on_day` returns `None` (second component) rather than a
sequence of `PredictionResult`, discarding every `predict_game` result; with
`lines=False` it passes the literal list `["home_team"]` — not the row's
home team — to `predict_game`, and with `lines=True` it passes the hardcoded
sample line `4` to every game rather than a per-game supplied line. -/
theorem C5_code_bug_eval :
    predict_games_on_day 17 10 2018 ([eveningGame]) false =
      .ok ([{ start_time := mkDatetime 2018 10 17 + 19 * 60,
              home_tm := .list ["home_team"],
              away_tm := "OKLAHOMA CITY THUNDER", line := 0 }], none) ∧
    predict_games_on_day 17 10 2018 ([eveningGame]) true =
      .ok ([{ start_time := mkDatetime 2018 10 17 + 19 * 60,
              home_tm := .str "GOLDEN STATE WARRIORS",
              away_tm := "OKLAHOMA CITY THUNDER", line := 4 }], none) :=
  ⟨rfl, rfl⟩

end NBApredict
